import Mathlib

/-!
Formal model of the MultiModalNets sound-to-image pipeline: the WGAN-GP
training script `scripts/v002_sound2image.py`, the networks in
`src/models/sound2image_v2.py`, and the loader in `src/datasets/dataset.py`.
The development embeds the training-loop arithmetic, the checkpoint
resumption logic, the generator's latent bypass, the decoder's shape
bookkeeping, and the Python name-resolution behaviour of the two modules,
and proves or refutes the specification's claims about them.
-/

namespace MultiModalNets

/-! ### Python runtime errors relevant to this code base -/

inductive PyError where
  | nameError (missing : String)
  | stopIteration
  | keyError
  | indexError
deriving DecidableEq, Repr

/-! ### Name resolution in `scripts/v002_sound2image.py`

Python resolves a name read inside `train` against the function's bound
names (parameters and names assigned anywhere in the body), then the
module's global names (imports and top-level definitions), then builtins.
A name found nowhere raises `NameError`. -/

/-- Module-level names of `scripts/v002_sound2image.py`: the imports of
lines 1-16 and the top-level definitions (lines 19, 28, 38). -/
def v002ModuleNames : List String :=
  ["torch", "nn", "calc_gp", "weights_init", "save_model", "load_model",
   "Dataset", "MelNormalizer", "MelDeNormalizer", "FrameNormalizer",
   "FrameDeNormalizer", "torchvision", "DataLoader", "Generator",
   "Discriminator", "copy", "os", "chain", "DATA_CONFIG", "MODEL_CONFIG",
   "train"]

/-- Names bound inside `train`: its five parameters and every name that is
the target of an assignment somewhere in the body.  `batch_size` is not
among them: it is never assigned and is not a parameter. -/
def trainLocalNames : List String :=
  ["data_dir", "test_data_dir", "config", "exp_dir", "device",
   "data_config", "model_config", "key", "mel_dataset", "mel_data_loader",
   "transforms", "dataset", "data_loader", "test_dataset",
   "test_data_loader", "netG", "netD", "g_last_iter", "d_last_iter",
   "last_iter", "optimizer_d", "optimizer_g", "iter_", "idx", "data_dict",
   "mel_data", "D_real", "gen_frames", "D_fake", "gp", "wasserstein_D",
   "d_loss", "DG_fake", "g_loss", "test_data_dict", "mel_test_data",
   "concat_frames", "fake_img", "real_img", "value"]

/-- The Python builtins this code base touches (none of them is
`batch_size` or `np`). -/
def pythonBuiltins : List String :=
  ["print", "len", "min", "max", "range", "list", "dict", "zip", "iter",
   "next", "enumerate", "getattr", "isinstance", "super", "open", "str",
   "int", "float", "format", "type"]

/-- Resolution of a name read inside `train`. -/
def nameInTrainScope (n : String) : Bool :=
  trainLocalNames.contains n || v002ModuleNames.contains n
    || pythonBuiltins.contains n

/-- Reading a name inside `train`: yields the unit value when the name
resolves, and raises `NameError` otherwise. -/
def readName (n : String) : Except PyError Unit :=
  if nameInTrainScope n then Except.ok () else Except.error (PyError.nameError n)

/-- The straight-line prefix of `train` (source lines 38-147), before the
`for iter_ in range(...)` training loop of line 149, traced as the sequence
of name reads each statement performs.  The flag records whether the cached
mel-normalizer file exists (line 58): when it does not, the normalizer
data loader of lines 59-68 is also built.  Every data-loader construction
reads the undefined name `batch_size` (lines 64, 67, 92, 95, 106, 109). -/
def trainStartup (mel_normalizer_cached : Bool) : Except PyError Unit := do
  readName "copy"            -- lines 40-41
  readName "DATA_CONFIG"
  readName "MODEL_CONFIG"
  readName "os"              -- lines 51-58
  if mel_normalizer_cached = false then
    readName "Dataset"       -- line 59
    readName "DataLoader"    -- line 62
    readName "batch_size"    -- lines 64, 67
  readName "torchvision"     -- lines 71-79
  readName "MelNormalizer"   -- line 80
  readName "Dataset"         -- line 87
  readName "DataLoader"      -- line 90
  readName "batch_size"      -- lines 92, 95
  readName "Dataset"         -- line 99
  readName "DataLoader"      -- line 104
  readName "batch_size"      -- lines 106, 109
  readName "iter"            -- line 111
  readName "Generator"       -- line 114
  readName "Discriminator"   -- line 115
  readName "weights_init"    -- lines 118-119
  readName "load_model"      -- lines 122-130
  readName "min"             -- line 125
  readName "torch"           -- lines 138, 143

/-! ### Name resolution in `src/datasets/dataset.py` and the Dataset class -/

/-- Module-level names of `src/datasets/dataset.py`: the imports of lines
1-4 and the top-level definitions of lines 7 and 15 (the class statement
rebinds the imported name `Dataset`).  `numpy` is never imported, so `np`
is absent. -/
def datasetModuleNames : List String :=
  ["Dataset", "Dict", "List", "Callable", "glob", "os", "FILENAME_TEMPLATE"]

/-- Names bound inside `Dataset.__getitem__`: its parameters and loop /
comprehension targets. -/
def getitemLocalNames : List String :=
  ["self", "idx", "data_dict", "data_type", "transform"]

/-- Resolution of a name read inside `Dataset.__getitem__`. -/
def nameInGetitemScope (n : String) : Bool :=
  getitemLocalNames.contains n || datasetModuleNames.contains n
    || pythonBuiltins.contains n

/-- The keys of the `FILENAME_TEMPLATE` dict (source lines 7-12). -/
def filenameTemplateKeys : List String :=
  ["frame", "audio", "log_mel_spec", "mel_if"]

/-- The filename `__getitem__` asks `np.load` for, per data type and index
(the template `(idx)_(data_type).npy` of lines 7-12 and 39). -/
def filenameFor (data_type : String) (idx : ℕ) : String :=
  toString idx ++ "_" ++ data_type ++ ".npy"

/-- The state `Dataset.__init__` stores that `__getitem__` consults: the
selected `load_files` keys (the `filename_template` / `dirs` dicts of
lines 22-28 are keyed by exactly these). -/
structure DatasetState where
  load_files : List String
deriving DecidableEq, Repr

/-- `Dataset.__init__` (source lines 16-30): the comprehension of lines
22-24 indexes `FILENAME_TEMPLATE` with each requested key (`KeyError` on
an unknown key), and line 30 evaluates `list(self.dirs.values())[0]`,
which raises `IndexError` when `load_files` is empty.  Otherwise the
selection is stored. -/
def datasetInit (load_files : List String) : Except PyError DatasetState :=
  if load_files.all (fun f => filenameTemplateKeys.contains f) then
    if load_files.isEmpty then Except.error PyError.indexError
    else Except.ok { load_files := load_files }
  else Except.error PyError.keyError

/-- `Dataset.__getitem__` (source lines 35-55): the dict comprehension of
lines 36-43 evaluates `np.load(...)` once per key of `filename_template`.
With at least one key, the very first evaluation reads the unresolvable
name `np`; with zero keys `np` is never read and the empty dict is
returned.  On success the comprehension would load the per-type files of
index `idx`. -/
def datasetGetitem (d : DatasetState) (idx : ℕ) : Except PyError (List String) :=
  if d.load_files.isEmpty then Except.ok []
  else if nameInGetitemScope "np" then
    Except.ok (d.load_files.map (fun t => filenameFor t idx))
  else Except.error (PyError.nameError "np")

/-! ### The test-data iterator at the qualitative-evaluation step -/

/-- Python's `next` on an iterator holding the listed remaining items:
raises `StopIteration` when exhausted. -/
def pyNext {τ : Type} (it : List τ) : Except PyError (τ × List τ) :=
  match it with
  | [] => Except.error PyError.stopIteration
  | x :: rest => Except.ok (x, rest)

/-- The evaluation-step batch fetch, source line 210:
`test_data_dict = next(test_data_loader)` — a bare `next` call with no
`try`/`except` anywhere in `train`, so its outcome is exactly `pyNext`. -/
def evalFetch {τ : Type} (test_data_loader : List τ) :
    Except PyError (τ × List τ) :=
  pyNext test_data_loader

/-! ### Checkpoint resumption (source lines 122-130, 149-151) -/

/-- Outcome of the resumption logic: the synchronized iteration, and for
each network the iteration it gets reloaded from (when its own latest
checkpoint was ahead). -/
structure ResumeResult where
  last_iter : ℤ
  g_reload : Option ℤ
  d_reload : Option ℤ
deriving DecidableEq, Repr

/-- Source lines 125-130.  The inputs are the values `load_model` returned
for each network (`utils.load_model` itself is not under `src/`; per the
spec it yields the network's latest checkpoint iteration, an empty
checkpoint directory yielding a value below every epoch index so that
training starts from iteration zero).  `last_iter = min`, and a network
whose own latest iteration differs from the minimum is reloaded at the
minimum. -/
def resumeSync (g_last_iter d_last_iter : ℤ) : ResumeResult :=
  let last_iter := min g_last_iter d_last_iter
  { last_iter := last_iter
  , g_reload := if g_last_iter ≠ last_iter then some last_iter else none
  , d_reload := if d_last_iter ≠ last_iter then some last_iter else none }

/-- Source lines 149-151: the epoch indices the loop actually runs —
`for iter_ in range(iters)` with `if iter_ <= last_iter: continue`. -/
def epochsRun (iters : ℕ) (last_iter : ℤ) : List ℕ :=
  (List.range iters).filter (fun iter_ => !(decide ((iter_ : ℤ) ≤ last_iter)))

/-! ### One mini-batch of the WGAN-GP loop (source lines 153-198)

Per-sample tensors are abstract types; a batch is a list of samples; the
critic is a per-sample score in ℚ, so that `view(-1).mean()` is the
rational mean of the mapped batch.  `optimizer_d.step()` (line 185) runs
before the generator phase, so the critic scoring the fresh fakes at line
194 is the stepped one, passed separately. -/

/-- Rational mean of a list, the value semantics of `.view(-1).mean()`. -/
def qmean (l : List ℚ) : ℚ := l.sum / l.length

/-- Value-level semantics of `Tensor.detach()`: the same values with
gradient tracking dropped (gradient flow is modelled separately below). -/
def detach {α : Type} (x : α) : α := x

/-- Every intermediate value of one mini-batch step, including the exact
arguments handed to `calc_gp` at lines 174-179. -/
structure StepTrace (Img : Type) where
  gen_frames : List Img
  D_real : ℚ
  D_fake : ℚ
  gp_real_images_arg : List ℚ
  gp_fake_images_arg : List Img
  gp : ℚ
  wasserstein_D : ℚ
  d_loss : ℚ
  DG_fake : ℚ
  g_loss : ℚ

/-- Source lines 166-196.  `netD` is the critic during the discriminator
phase, `netD_stepped` the critic after `optimizer_d.step()` (line 185),
used by the generator phase at line 194.  `calc_gp_val` gives the value of
`calc_gp` as a function of the arguments the script passes it
(`utils.calc_gp` is not under `src/`; per the spec it is the WGAN-GP
two-sided penalty over interpolations of its `real_images` and
`fake_images` arguments).  Line 176 passes `netD(data_dict["frame"])` —
the critic's scores — as `real_images`, which the trace records. -/
def miniBatchStep {Img Mel : Type} (netD netD_stepped : Img → ℚ)
    (netG : Mel → Img) (calc_gp_val : List ℚ → List Img → ℚ)
    (frames : List Img) (mels : List Mel) : StepTrace Img :=
  let D_real := qmean (frames.map netD)                      -- line 169
  let gen_frames := mels.map netG                            -- line 171
  let D_fake := qmean ((gen_frames.map detach).map netD)     -- line 172
  let gp_real := frames.map netD                             -- line 176
  let gp_fake := gen_frames.map detach                       -- line 177
  let gp := calc_gp_val gp_real gp_fake                      -- lines 174-179
  let wasserstein_D := D_real - D_fake                       -- line 181
  let d_loss := D_fake - D_real + gp                         -- line 182
  let gen_frames2 := mels.map netG                           -- line 193
  let DG_fake := qmean (gen_frames2.map netD_stepped)        -- line 194
  let g_loss := -1 * DG_fake                                 -- line 195
  { gen_frames := gen_frames
  , D_real := D_real
  , D_fake := D_fake
  , gp_real_images_arg := gp_real
  , gp_fake_images_arg := gp_fake
  , gp := gp
  , wasserstein_D := wasserstein_D
  , d_loss := d_loss
  , DG_fake := DG_fake
  , g_loss := g_loss }

/-! ### Parameter mutation across the two alternating updates -/

/-- A network as the optimizer sees it: its parameters and their gradient
buffers. -/
structure Net (β : Type) where
  params : β
  grads : β

/-- The two networks of the adversarial pair. -/
structure GanState (γ δ : Type) where
  netG : Net γ
  netD : Net δ

/-- The autograd/optimizer semantics the script relies on: zero-gradient
values, the gradients each loss's `backward()` deposits, and the Adam
parameter update of each optimizer (params, grads ↦ new params).
`d_loss` is built exclusively from detached fakes (lines 172, 177), so its
backward pass deposits gradients only on `netD`; `g_loss` flows through
`netD` into `netG` (lines 193-196), depositing on both. -/
structure AutogradModel (γ δ ρ μ : Type) where
  zeroG : γ
  zeroD : δ
  dLossGradD : δ → γ → ρ → μ → δ
  gLossGradG : γ → δ → μ → γ
  gLossGradD : δ → γ → μ → δ
  adamStepG : γ → γ → γ
  adamStepD : δ → δ → δ

/-- The discriminator update (source lines 166-185): both gradient buffers
are zeroed, `d_loss.backward()` deposits gradients on `netD` only (the
fakes are detached), and only `optimizer_d.step()` runs. -/
def updateDPhase {γ δ ρ μ : Type} (m : AutogradModel γ δ ρ μ)
    (s : GanState γ δ) (frames : ρ) (mel_data : μ) : GanState γ δ :=
  let nD := { s.netD with grads := m.zeroD }                        -- line 166
  let nG := { s.netG with grads := m.zeroG }                        -- line 167
  let nD := { nD with grads := m.dLossGradD nD.params nG.params frames mel_data }  -- line 183
  let nD := { nD with params := m.adamStepD nD.params nD.grads }    -- line 185
  { netG := nG, netD := nD }

/-- The generator update (source lines 190-198): both gradient buffers are
zeroed, `g_loss.backward()` deposits gradients on both networks (no
detach this time), and only `optimizer_g.step()` runs. -/
def updateGPhase {γ δ ρ μ : Type} (m : AutogradModel γ δ ρ μ)
    (s : GanState γ δ) (mel_data : μ) : GanState γ δ :=
  let nD := { s.netD with grads := m.zeroD }                        -- line 190
  let nG := { s.netG with grads := m.zeroG }                        -- line 191
  let nG := { nG with grads := m.gLossGradG nG.params nD.params mel_data }  -- line 196
  let nD := { nD with grads := m.gLossGradD nD.params nG.params mel_data }  -- line 196
  let nG := { nG with params := m.adamStepG nG.params nG.grads }    -- line 198
  { netG := nG, netD := nD }

/-! ### Generator.forward (src/models/sound2image_v2.py, lines 288-327)

The building-block layers are external library components with fixed
input/output contracts; each is an abstract function on an abstract tensor
type, and the composition order is the source's. -/

/-- The sub-modules `Generator.__init__` installs (lines 176-286), as the
abstract maps `forward` composes. -/
structure GeneratorNet (α : Type) where
  dn_block1 : α → α
  dn_block2 : α → α
  dn_block3 : α → α
  dn_block4 : α → α
  sa_layer : Option (α → α)
  dn_block5 : α → α
  dn_block6 : α → α
  global_avg_pool : α → α
  last_norm : α → α
  last_act : α → α
  last_conv : α → α
  view_latent : α → α
  imgfeat2img : α → α

/-- The encoder path of `Generator.forward` (lines 296-320): the six
downsampling blocks with optional self-attention after the fourth, then
`last_conv(global_avg_pool(last_act(last_norm(dn6)))).view(-1, 4096)`. -/
def GeneratorNet.encode {α : Type} (G : GeneratorNet α) (input : α) : α :=
  let dn := G.dn_block1 input
  let dn := G.dn_block2 dn
  let dn3 := G.dn_block3 dn
  let dn4 := G.dn_block4 dn3
  let dn4 := match G.sa_layer with
             | some sa => sa dn4
             | none => dn4
  let dn5 := G.dn_block5 dn4
  let dn6 := G.dn_block6 dn5
  G.view_latent (G.last_conv (G.global_avg_pool (G.last_act (G.last_norm dn6))))

/-- `Generator.forward` (lines 288-327): with `is_feature=False` the input
is encoded into `latent_vec`; with `is_feature=True` the input itself is
`latent_vec`; either way the decoder runs on `latent_vec` and the pair
`(generated_img, latent_vec)` is returned.  Parameters are fixed and the
pass is deterministic: every layer is a pure function. -/
def GeneratorNet.forward {α : Type} (G : GeneratorNet α) (input : α)
    (is_feature : Bool) : α × α :=
  let latent_vec := if is_feature = false then G.encode input else input
  (G.imgfeat2img latent_vec, latent_vec)

/-! ### Decoder shape bookkeeping (ImageFeature2Image, lines 11-173)

The block channel pairs and the self-attention channel count are the
source's; the per-block shape action is the library contract of the
missing `modules/` files. -/

/-- A feature-map shape: channels, height, width. -/
structure Shape where
  channels : ℕ
  height : ℕ
  width : ℕ
deriving DecidableEq, Repr

/-- Modelled from the spec: `BlockUpsample2d` (from the absent
`modules/residual.py`) is an upsampling residual block that doubles the
spatial resolution and maps its `in_channels` to its `out_channels`; the
channel count of its input must match. -/
def upsampleShape (in_channels out_channels : ℕ) (s : Shape) : Option Shape :=
  if s.channels = in_channels then
    some { channels := out_channels, height := 2 * s.height, width := 2 * s.width }
  else none

/-- Modelled from the spec: `SelfAttention2d` (from the absent
`modules/self_attention.py`) is a non-local mixing layer that preserves
the feature-map shape; its `in_channels` must match the input. -/
def selfAttentionShape (in_channels : ℕ) (s : Shape) : Option Shape :=
  if s.channels = in_channels then some s else none

/-- Modelled from the spec: a 1×1-kernel, stride-1, padding-0 convolution
(the decoder's `last_conv`, source lines 118-128) preserves spatial size
and maps `in_channels` to `out_channels`. -/
def conv1x1Shape (in_channels out_channels : ℕ) (s : Shape) : Option Shape :=
  if s.channels = in_channels then
    some { channels := out_channels, height := s.height, width := s.width }
  else none

/-- The optional self-attention layer of `ImageFeature2Image.__init__`
(source lines 75-77): when enabled it is constructed with
`in_channels=64`. -/
def imgfeat2imgSaLayer (self_attention : Bool) : Option ℕ :=
  if self_attention then some 64 else none

/-- Shape after the first five upsampling blocks of
`ImageFeature2Image.forward` (lines 138-150), i.e. the feature map the
optional self-attention layer receives (lines 152-153).  The channel
pairs are the source's: 4096→512→256→128→64→64. -/
def imgfeat2imgShapeAt5 (s0 : Shape) : Option Shape := do
  let s1 ← upsampleShape 4096 512 s0
  let s2 ← upsampleShape 512 256 s1
  let s3 ← upsampleShape 256 128 s2
  let s4 ← upsampleShape 128 64 s3
  upsampleShape 64 64 s4

/-- Shape of the full `ImageFeature2Image.forward` pipeline (lines
132-173): five upsampling blocks, optional self-attention, three more
upsampling blocks (64→32→32→16), then the shape-preserving norm and
activation and the 1×1 convolution down to 3 channels. -/
def imgfeat2imgShapeTrace (self_attention : Bool) (s0 : Shape) : Option Shape := do
  let s5 ← imgfeat2imgShapeAt5 s0
  let s5a ← match imgfeat2imgSaLayer self_attention with
            | some c => selfAttentionShape c s5
            | none => some s5
  let s6 ← upsampleShape 64 32 s5a
  let s7 ← upsampleShape 32 32 s6
  let s8 ← upsampleShape 32 16 s7
  conv1x1Shape 16 3 s8

/-! ## Theorems for the claims -/

/-- C1: the claim states that the value passed as the gradient penalty's
real-side input is the raw real image tensor.  The script instead passes
`netD(data_dict["frame"])` — the critic's scores on the real frames — as
`calc_gp`'s `real_images` argument (line 176).  The first conjunct shows
the argument always equals the critic's scores on the frames; the second
evaluates the step at a concrete failing input (critic `x ↦ x + 1` on the
one-frame batch `[0]`), where the argument received is `[1]`, not the raw
frame batch `[0]`. -/
theorem claim1_gp_real_arg_is_critic_score :
    (∀ (Img Mel : Type) (netD netD_stepped : Img → ℚ) (netG : Mel → Img)
        (calc_gp_val : List ℚ → List Img → ℚ) (frames : List Img)
        (mels : List Mel),
        (miniBatchStep netD netD_stepped netG calc_gp_val frames mels).gp_real_images_arg
          = frames.map netD)
      ∧ (@miniBatchStep ℚ ℚ (fun x => x + 1) (fun x => x) (fun x => x)
          (fun _ _ => 0) [0] [0]).gp_real_images_arg ≠ [0] := by
  constructor
  · intro Img Mel netD netD_stepped netG calc_gp_val frames mels
    rfl
  · show [(0 : ℚ) + 1] ≠ [0]
    norm_num

/-- C2: resumption always starts from the minimum of the two latest
checkpoint iterations; exactly the network whose latest checkpoint is
strictly ahead of that minimum is reloaded, and it is reloaded at the
minimum; the training loop runs exactly the epoch indices strictly above
the minimum (skipping every index ≤ it). -/
theorem claim2_resume_from_min (g_last_iter d_last_iter : ℤ) (iters i : ℕ) :
    (resumeSync g_last_iter d_last_iter).last_iter
        = min g_last_iter d_last_iter
      ∧ (resumeSync g_last_iter d_last_iter).g_reload
          = (if min g_last_iter d_last_iter < g_last_iter
             then some (min g_last_iter d_last_iter) else none)
      ∧ (resumeSync g_last_iter d_last_iter).d_reload
          = (if min g_last_iter d_last_iter < d_last_iter
             then some (min g_last_iter d_last_iter) else none)
      ∧ (i ∈ epochsRun iters (resumeSync g_last_iter d_last_iter).last_iter
          ↔ i < iters ∧ min g_last_iter d_last_iter < (i : ℤ)) := by
  refine ⟨rfl, ?_, ?_, ?_⟩
  · show (if g_last_iter ≠ min g_last_iter d_last_iter
          then some (min g_last_iter d_last_iter) else none) = _
    split_ifs with h1 h2
    · rfl
    · exfalso; omega
    · exfalso; omega
    · rfl
  · show (if d_last_iter ≠ min g_last_iter d_last_iter
          then some (min g_last_iter d_last_iter) else none) = _
    split_ifs with h1 h2
    · rfl
    · exfalso; omega
    · exfalso; omega
    · rfl
  · show i ∈ epochsRun iters (min g_last_iter d_last_iter) ↔ _
    simp [epochsRun, List.mem_filter, List.mem_range]

/-- C3: in every mini-batch step, the discriminator loss equals
`D_fake − D_real + gp` with `D_real` the batch-mean critic score on the
real frames and `D_fake` the batch-mean critic score on the detached
fakes; the generator loss equals `−DG_fake`, the batch-mean critic score
on the freshly generated fakes; and the logged Wasserstein estimate
equals `D_real − D_fake`. -/
theorem claim3_wgan_losses {Img Mel : Type} (netD netD_stepped : Img → ℚ)
    (netG : Mel → Img) (calc_gp_val : List ℚ → List Img → ℚ)
    (frames : List Img) (mels : List Mel) :
    (miniBatchStep netD netD_stepped netG calc_gp_val frames mels).d_loss
        = (miniBatchStep netD netD_stepped netG calc_gp_val frames mels).D_fake
            - (miniBatchStep netD netD_stepped netG calc_gp_val frames mels).D_real
            + (miniBatchStep netD netD_stepped netG calc_gp_val frames mels).gp
      ∧ (miniBatchStep netD netD_stepped netG calc_gp_val frames mels).D_real
          = qmean (frames.map netD)
      ∧ (miniBatchStep netD netD_stepped netG calc_gp_val frames mels).D_fake
          = qmean (((mels.map netG).map detach).map netD)
      ∧ (miniBatchStep netD netD_stepped netG calc_gp_val frames mels).g_loss
          = -(miniBatchStep netD netD_stepped netG calc_gp_val frames mels).DG_fake
      ∧ (miniBatchStep netD netD_stepped netG calc_gp_val frames mels).DG_fake
          = qmean ((mels.map netG).map netD_stepped)
      ∧ (miniBatchStep netD netD_stepped netG calc_gp_val frames mels).wasserstein_D
          = (miniBatchStep netD netD_stepped netG calc_gp_val frames mels).D_real
              - (miniBatchStep netD netD_stepped netG calc_gp_val frames mels).D_fake := by
  refine ⟨rfl, rfl, rfl, ?_, rfl, rfl⟩
  show (-1 : ℚ) * qmean ((mels.map netG).map netD_stepped)
      = -qmean ((mels.map netG).map netD_stepped)
  exact neg_one_mul _

/-- C4 counterexample: at a concrete exhausted test-data iterator, the
evaluation-step fetch of line 210 surfaces `StopIteration` as an error —
it does not recover by recreating the iterator, refuting the claim that
exhaustion is never surfaced as an error to the caller of `train`. -/
theorem claim4_counterexample :
    evalFetch ([] : List ℕ) = Except.error PyError.stopIteration := rfl

/-- C4 amended: the evaluation-step fetch simply advances the iterator
when a batch remains, and raises `StopIteration` when the iterator is
exhausted; `train` installs no handler, so the exception propagates to
its caller and the iterator is never recreated. -/
theorem claim4_amended_fetch_behaviour (τ : Type) (x : τ) (rest : List τ) :
    evalFetch (x :: rest) = Except.ok (x, rest)
      ∧ evalFetch ([] : List τ) = Except.error PyError.stopIteration :=
  ⟨rfl, rfl⟩

/-- C5: in the end-to-end scenario (fresh experiment directory, so the mel
normalizer is not cached), `train` raises `NameError` on `batch_size`
while constructing the very first data loader — before any batch is
drawn, so no epoch completes, no loss is produced, and no evaluation
image is written, contrary to the claimed scenario outcome. -/
theorem claim5_scenario_hits_name_error :
    trainStartup false = Except.error (PyError.nameError "batch_size") := rfl

/-- C6: the latent vector returned by `Generator.forward(input, False)`
fed back through `Generator.forward(·, True)` reproduces exactly the same
generated image (indeed the same returned pair), and the full call returns
the pair of the decoded image and the encoder's latent vector. -/
theorem claim6_generator_bypass {α : Type} (G : GeneratorNet α) (input : α) :
    G.forward (G.forward input false).2 true = G.forward input false
      ∧ G.forward input false
          = (G.imgfeat2img (G.encode input), G.encode input) :=
  ⟨rfl, rfl⟩

/-- C7: the discriminator update leaves every generator parameter
unchanged (and, the fakes being detached, leaves the generator's gradient
buffers at zero — only `optimizer_d.step()` runs), and the generator
update leaves every discriminator parameter unchanged (only
`optimizer_g.step()` runs). -/
theorem claim7_each_update_mutates_own_params {γ δ ρ μ : Type}
    (m : AutogradModel γ δ ρ μ) (s : GanState γ δ) (frames : ρ)
    (mel_data : μ) :
    (updateDPhase m s frames mel_data).netG.params = s.netG.params
      ∧ (updateDPhase m s frames mel_data).netG.grads = m.zeroG
      ∧ (updateGPhase m s mel_data).netD.params = s.netD.params :=
  ⟨rfl, rfl, rfl⟩

/-- C8 counterexample: starting from the (batch, 4096, 1, 1) reshaped
latent, the feature map right after the fifth upsampling block — the one
the self-attention layer receives — is 64 channels at 32×32 spatial
resolution, not the 64×64 the claim states (five doublings of a 1×1 map
give 32×32). -/
theorem claim8_counterexample :
    imgfeat2imgShapeAt5 { channels := 4096, height := 1, width := 1 }
        = some { channels := 64, height := 32, width := 32 }
      ∧ ({ channels := 64, height := 32, width := 32 } : Shape)
          ≠ { channels := 64, height := 64, width := 64 } := by
  exact ⟨rfl, by decide⟩

/-- C8 amended: when self-attention is enabled the decoder constructs it
over 64 channels, and it is applied immediately after the fifth
upsampling block, at which point the feature map has 64 channels at
32×32 spatial resolution (the map starts at 1×1 and doubles at each of
the five preceding blocks); the full pipeline then reaches the
3×256×256 output. -/
theorem claim8_amended_sa_at_64ch_32px :
    imgfeat2imgSaLayer true = some 64
      ∧ imgfeat2imgShapeAt5 { channels := 4096, height := 1, width := 1 }
          = some { channels := 64, height := 32, width := 32 }
      ∧ selfAttentionShape 64 { channels := 64, height := 32, width := 32 }
          = some { channels := 64, height := 32, width := 32 }
      ∧ imgfeat2imgShapeTrace true { channels := 4096, height := 1, width := 1 }
          = some { channels := 3, height := 256, width := 256 } :=
  ⟨rfl, rfl, rfl, rfl⟩

/-- C9: whether or not the mel-normalizer cache exists, the straight-line
prefix of `train` raises `NameError` on `batch_size` while building the
data loaders, before the training loop is ever entered: `batch_size` is
neither a bound name of `train`, nor a module-level name, nor a
builtin. -/
theorem claim9_train_name_error (mel_normalizer_cached : Bool) :
    trainStartup mel_normalizer_cached
        = Except.error (PyError.nameError "batch_size")
      ∧ nameInTrainScope "batch_size" = false := by
  cases mel_normalizer_cached <;> exact ⟨rfl, rfl⟩

/-- C10: every successfully constructed `Dataset` (construction itself
fails on an empty or unknown `load_files` selection) has at least one
requested modality, so `__getitem__` at any index evaluates `np.load`,
reads the unresolvable name `np` (`numpy` is never imported by
`dataset.py`), and raises `NameError`. -/
theorem claim10_getitem_name_error (load_files : List String)
    (d : DatasetState) (idx : ℕ)
    (h : datasetInit load_files = Except.ok d) :
    datasetGetitem d idx = Except.error (PyError.nameError "np") := by
  unfold datasetInit at h
  split at h
  · split at h
    · exact absurd h (by simp)
    · have hd : d = { load_files := load_files } := by
        cases h
        rfl
      have hne : load_files.isEmpty = false := by
        rename_i hemp
        simpa using hemp
      subst hd
      unfold datasetGetitem
      rw [hne]
      simp [nameInGetitemScope, getitemLocalNames, datasetModuleNames,
        pythonBuiltins]
  · exact absurd h (by simp)

/-- C10 witness: the selection `["frame"]` constructs a dataset, and its
`__getitem__` at index 0 raises `NameError` on `np`. -/
theorem claim10_witness :
    datasetInit ["frame"] = Except.ok { load_files := ["frame"] }
      ∧ datasetGetitem { load_files := ["frame"] } 0
          = Except.error (PyError.nameError "np") :=
  ⟨rfl, claim10_getitem_name_error ["frame"] { load_files := ["frame"] } 0 rfl⟩

end MultiModalNets
